import Mathlib

/-!
Shallow embedding of the registry monitor (src/monitor.go).

The program keeps two package-level boolean flags, healthy and status,
declared as plain Go vars (so both start at the zero value false), and a
probe loop runMonitor that repeatedly runs a fixed pipeline of container
runtime operations: connect, clear containers, clear images, pull, delete
top layer, create tag layer, push.  Each helper either leaves the global
state alone, sets healthy := false, or sets status, and returns a boolean
that runMonitor interprets as step success.  External operations are
modelled by an oracle environment that scripts the outcome of every
runtime call; the flags, the loop-local backoff duration (in seconds),
and the Prometheus counters and summary observation counts are threaded
through an explicit state record.
-/

namespace RegistryMonitor

/-- The mutable process state touched by the monitor loop: the two
package-level flags (healthy, status), the loop-local sleep duration in
seconds, and the Prometheus metrics (success and failure counters, and
observation counts of the pull and push latency summaries). -/
structure MState where
  healthy : Bool
  status : Bool
  duration : Nat
  successCount : Nat
  failCount : Nat
  pullObs : Nat
  pushObs : Nat
  deriving DecidableEq

/-- State at process start: the Go vars healthy and status are declared
without initializers, so both hold the zero value false; duration is the
value assigned at the top of mainLoop (2 minutes = 120 seconds); all
metrics start at zero. -/
def initState : MState :=
  { healthy := false, status := false, duration := 120,
    successCount := 0, failCount := 0, pullObs := 0, pushObs := 0 }

/-- A container as seen through ListContainers: an id and a list of names. -/
structure Container where
  id : String
  names : List String
  deriving DecidableEq

/-- An image history entry as seen through ImageHistory: an id and tags. -/
structure HistEntry where
  id : String
  tags : List String
  deriving DecidableEq

/-- Oracle for the outcomes of the external runtime calls made during one
iteration of the monitor loop. -/
structure IterEnv where
  connectOk : Bool
  pingOk : Bool
  listContainersOk : Bool
  containers : List Container
  removeContainerOk : String → Bool
  listImagesOk : Bool
  images : List String
  removeImageOk : String → Bool
  cascade : String → List String
  pullOk : Bool
  historyOk : Bool
  history : List HistEntry
  removeHistOk : String → Bool
  createOk : Bool
  commitOk : Bool
  pushOk : Bool

/-- Process-wide environment: the UNDER_DOCKER env var (read afresh each
time but constant for the process) and one oracle per loop iteration. -/
structure Env where
  underDocker : Bool
  iters : Nat → IterEnv

/-- Source helper stringInSlice: linear scan for an exact match. -/
def stringInSlice (value : String) : List String → Bool
  | [] => false
  | current :: rest => if current == value then true else stringInSlice value rest

/-- Source verifyDockerClient: on Ping failure set healthy := false and
return false, otherwise return true.  (Defined in the source but not
called from runMonitor.) -/
def verifyDockerClient (e : IterEnv) (st : MState) : MState × Bool :=
  if e.pingOk = false then ({ st with healthy := false }, false)
  else (st, true)

/-- The per-container loop of clearAllContainers: skip any container
named monitor, remove the rest; a removal error sets healthy := false and
returns false; after the loop the function returns the healthy flag. -/
def clearAllContainersGo (e : IterEnv) (st : MState) : List Container → MState × Bool
  | [] => (st, st.healthy)
  | c :: rest =>
    if stringInSlice "monitor" c.names then clearAllContainersGo e st rest
    else if e.removeContainerOk c.id then clearAllContainersGo e st rest
    else ({ st with healthy := false }, false)

/-- Source clearAllContainers: a ListContainers error sets
healthy := false and returns false, otherwise run the removal loop. -/
def clearAllContainers (e : IterEnv) (st : MState) : MState × Bool :=
  if e.listContainersOk = false then ({ st with healthy := false }, false)
  else clearAllContainersGo e st e.containers

/-- Effect of RemoveImage on the runtime image list: the target vanishes
together with any images the oracle says cascade away with it. -/
def removeImage (e : IterEnv) (target : String) (imgs : List String) : List String :=
  imgs.filter (fun j => !(j == target || stringInSlice j (e.cascade target)))

/-- Result of a clearAllImages call: the final global state, the returned
boolean, the image list still held by the runtime, the local skipImages
set, and the ids on which RemoveImage was actually called, in order. -/
structure ClearDone where
  st : MState
  ret : Bool
  imgs : List String
  skip : List String
  attempts : List String
  deriving DecidableEq

/-- The outer listing loop of clearAllImages, fueled by the number of
passes.  Each pass: a ListImages error sets healthy := false and returns
false; if every listed image is in skipImages, return the healthy flag;
otherwise the removal loop runs over images[:1], that is over the first
listed image only: if it is skipped nothing is removed, so the pass ends
with removedImages = false and the function breaks out returning true; if
RemoveImage succeeds the outer loop re-lists; if RemoveImage fails then
outside UNDER_DOCKER the error is fatal (healthy := false, return false)
and under UNDER_DOCKER the image is added to skipImages, after which the
pass again ends with removedImages = false and the function returns true. -/
def clearAllImagesGo (underDocker : Bool) (e : IterEnv) :
    Nat → List String → List String → List String → MState → Option ClearDone
  | 0, _, _, _, _ => none
  | Nat.succ fuel, imgs, skip, atts, st =>
    if e.listImagesOk = false then
      some { st := { st with healthy := false }, ret := false,
             imgs := imgs, skip := skip, attempts := atts }
    else if imgs.all (fun i => stringInSlice i skip) then
      some { st := st, ret := st.healthy, imgs := imgs, skip := skip, attempts := atts }
    else
      match imgs with
      | [] =>
        some { st := st, ret := st.healthy, imgs := [], skip := skip, attempts := atts }
      | img :: rest =>
        if stringInSlice img skip then
          some { st := st, ret := true, imgs := img :: rest, skip := skip, attempts := atts }
        else if e.removeImageOk img then
          clearAllImagesGo underDocker e fuel (removeImage e img (img :: rest))
            skip (atts ++ [img]) st
        else if underDocker = false then
          some { st := { st with healthy := false }, ret := false,
                 imgs := img :: rest, skip := skip, attempts := atts ++ [img] }
        else
          some { st := st, ret := true, imgs := img :: rest, skip := img :: skip,
                 attempts := atts ++ [img] }

/-- Source clearAllImages: start with an empty skipImages set and loop;
one more unit of fuel than the number of listed images always suffices
(clearAllImagesGo_total below), so the fallback arm is unreachable. -/
def clearAllImages (underDocker : Bool) (e : IterEnv) (st : MState) : ClearDone :=
  match clearAllImagesGo underDocker e (e.images.length + 1) e.images [] [] st with
  | some d => d
  | none => { st := st, ret := false, imgs := e.images, skip := [], attempts := [] }

/-- The history scan of deleteTopLayer: find the first entry tagged
latest and remove it; a removal error sets healthy := false and returns
false; after a successful removal, or when no entry is tagged latest, the
function returns the healthy flag. -/
def deleteTopLayerGo (e : IterEnv) (st : MState) : List HistEntry → MState × Bool
  | [] => (st, st.healthy)
  | entry :: rest =>
    if stringInSlice "latest" entry.tags then
      if e.removeHistOk entry.id then (st, st.healthy)
      else ({ st with healthy := false }, false)
    else deleteTopLayerGo e st rest

/-- Source deleteTopLayer: an ImageHistory error sets healthy := false
and returns false, otherwise scan the history. -/
def deleteTopLayer (e : IterEnv) (st : MState) : MState × Bool :=
  if e.historyOk = false then ({ st with healthy := false }, false)
  else deleteTopLayerGo e st e.history

/-- Source createTagLayer: CreateContainer failure and CommitContainer
failure each set healthy := false and return false; on success the
function returns the healthy flag. -/
def createTagLayer (e : IterEnv) (st : MState) : MState × Bool :=
  if e.createOk = false then ({ st with healthy := false }, false)
  else if e.commitOk = false then ({ st with healthy := false }, false)
  else (st, st.healthy)

/-- Source pullTestImage: on PullImage failure set status := false and
return false, otherwise return true. -/
def pullTestImage (e : IterEnv) (st : MState) : MState × Bool :=
  if e.pullOk = false then ({ st with status := false }, false)
  else (st, true)

/-- Source pushTestImage: on PushImage failure set status := false and
return false; on success set status := true and return true. -/
def pushTestImage (e : IterEnv) (st : MState) : MState × Bool :=
  if e.pushOk = false then ({ st with status := false }, false)
  else ({ st with status := true }, true)

/-- Which pipeline steps one iteration actually invoked, plus the image
ids on which image cleanup called RemoveImage. -/
structure IterTrace where
  cleanupAttempts : List String
  pullInvoked : Bool
  deleteInvoked : Bool
  createInvoked : Bool
  pushInvoked : Bool
  deriving DecidableEq

/-- Trace of an iteration that stopped before the pull step. -/
def noSteps : IterTrace :=
  { cleanupAttempts := [], pullInvoked := false, deleteInvoked := false,
    createInvoked := false, pushInvoked := false }

/-- How one iteration of the mainLoop body ends: fatal corresponds to the
early returns that terminate the loop, transient to the continue after a
pull or push failure, success to falling through to the next iteration. -/
inductive IterExit where
  | fatal
  | transient
  | success
  deriving DecidableEq

/-- Result of one iteration of the mainLoop body. -/
structure IterResult where
  st : MState
  outcome : IterExit
  trace : IterTrace
  deriving DecidableEq

/-- The part of the mainLoop body from the pull step onward (reached
once connect, container cleanup and image cleanup have all returned
true); atts carries the RemoveImage attempts of the cleanup for the
trace.  pullTestImage failure sets duration to 30 seconds, bumps the
failure counter, and continues; success observes the pull latency, then
deleteTopLayer and createTagLayer returning false end the loop;
pushTestImage failure is treated like a pull failure, and success
observes the push latency, restores the 120 second duration and bumps
the success counter. -/
def iterFromPull (e : IterEnv) (atts : List String) (stp : MState) : IterResult :=
  let tr1 := { noSteps with cleanupAttempts := atts, pullInvoked := true }
  let pullRes := pullTestImage e stp
  if pullRes.2 = false then
    { st := { pullRes.1 with duration := 30, failCount := pullRes.1.failCount + 1 }, outcome := IterExit.transient, trace := tr1 }
  else
    let st4 := { pullRes.1 with pullObs := pullRes.1.pullObs + 1 }
    let tr2 := { tr1 with deleteInvoked := true }
    let delRes := deleteTopLayer e st4
    if delRes.2 = false then
      { st := delRes.1, outcome := IterExit.fatal, trace := tr2 }
    else
      let tr3 := { tr2 with createInvoked := true }
      let createRes := createTagLayer e delRes.1
      if createRes.2 = false then
        { st := createRes.1, outcome := IterExit.fatal, trace := tr3 }
      else
        let tr4 := { tr3 with pushInvoked := true }
        let pushRes := pushTestImage e createRes.1
        if pushRes.2 = false then
          { st := { pushRes.1 with duration := 30, failCount := pushRes.1.failCount + 1 }, outcome := IterExit.transient, trace := tr4 }
        else
          { st := { pushRes.1 with duration := 120, successCount := pushRes.1.successCount + 1, pushObs := pushRes.1.pushObs + 1 }, outcome := IterExit.success, trace := tr4 }

/-- One pass of the body of mainLoop in runMonitor, between sleeps:
status := true; newDockerClient (failure sets healthy := false and
returns); clearAllContainers unless UNDER_DOCKER; clearAllImages; then
the pull, delete, create and push stages via iterFromPull.  Any helper
returning false other than pull and push makes the function return,
ending the loop. -/
def runIteration (underDocker : Bool) (e : IterEnv) (st0 : MState) : IterResult :=
  let st1 := { st0 with status := true }
  if e.connectOk = false then
    { st := { st1 with healthy := false }, outcome := IterExit.fatal, trace := noSteps }
  else
    let contRes := if underDocker = false then clearAllContainers e st1 else (st1, true)
    if contRes.2 = false then
      { st := contRes.1, outcome := IterExit.fatal, trace := noSteps }
    else
      let d := clearAllImages underDocker e contRes.1
      if d.ret = false then
        { st := d.st, outcome := IterExit.fatal,
          trace := { noSteps with cleanupAttempts := d.attempts } }
      else
        iterFromPull e d.attempts d.st

/-- Outcome of running the monitor loop for a bounded number of
iterations: the final state, the trace of every executed iteration, and
whether the loop returned (a fatal step) rather than running out of the
observation bound. -/
structure RunResult where
  st : MState
  traces : List IterTrace
  halted : Bool
  deriving DecidableEq

/-- The mainLoop of runMonitor, observed for fuel iterations: a fatal
iteration ends the loop for good; otherwise the loop continues with the
state the iteration produced.  The inter-iteration sleep only spends
time, so it is not modelled beyond the duration field. -/
def runLoop (env : Env) : Nat → Nat → MState → RunResult
  | 0, _, st => { st := st, traces := [], halted := false }
  | Nat.succ fuel, i, st =>
    let r := runIteration env.underDocker (env.iters i) st
    match r.outcome with
    | IterExit.fatal => { st := r.st, traces := [r.trace], halted := true }
    | _ =>
      let rest := runLoop env fuel (i + 1) r.st
      { st := rest.st, traces := r.trace :: rest.traces, halted := rest.halted }

/-- Source runMonitor: launch mainLoop from the process start state. -/
def runMonitor (env : Env) (fuel : Nat) : RunResult :=
  runLoop env fuel 0 initState

/-- The %t formatting of a Go bool. -/
def boolText (b : Bool) : String := if b then "true" else "false"

/-- Source healthHandler: write header 503 when healthy is false
(otherwise the implicit 200), then the textual flag value. -/
def healthHandler (st : MState) : Nat × String :=
  if st.healthy = false then (503, boolText st.healthy)
  else (200, boolText st.healthy)

/-- Source statusHandler: write header 400 when status is false
(otherwise the implicit 200), then the textual flag value. -/
def statusHandler (st : MState) : Nat × String :=
  if st.status = false then (400, boolText st.status)
  else (200, boolText st.status)

/-- Oracle under which every runtime operation succeeds and the runtime
starts with no containers and no images. -/
def allOkEnv : IterEnv :=
  { connectOk := true, pingOk := true,
    listContainersOk := true, containers := [], removeContainerOk := fun _ => true,
    listImagesOk := true, images := [], removeImageOk := fun _ => true,
    cascade := fun _ => [], pullOk := true,
    historyOk := true, history := [], removeHistOk := fun _ => true,
    createOk := true, commitOk := true, pushOk := true }

/-- Oracle of claim C5 and of the C10 counterexample: one image whose
removal always fails, and a pull that fails transiently. -/
def env5iter : IterEnv :=
  { allOkEnv with images := ["img"], removeImageOk := fun _ => false, pullOk := false }

/-- Oracle of the C8 counterexample: two images, removal of the first
always fails, removal of the second succeeds. -/
def env8 : IterEnv :=
  { allOkEnv with images := ["a", "b"], removeImageOk := fun s => !(s == "a") }

/-- Oracle of claim C7: image cleanup reaches the break path (one image
whose removal fails under UNDER_DOCKER), the pull succeeds, and the image
history holds no entry tagged latest. -/
def env7iter : IterEnv :=
  { allOkEnv with images := ["bad"], removeImageOk := fun _ => false, history := [{ id := "base", tags := ["other"] }] }

/-- Process environment of claim C3 and claim C6: every runtime
operation succeeds on every iteration, UNDER_DOCKER unset. -/
def env3 : Env := { underDocker := false, iters := fun _ => allOkEnv }

/-- Process environment of the C10 counterexample: constrained mode with
the env5iter script on every iteration. -/
def env10 : Env := { underDocker := true, iters := fun _ => env5iter }

/-- clearAllContainersGo either leaves the state alone and returns the
healthy flag, or sets healthy := false and returns false. -/
theorem clearAllContainersGo_spec (e : IterEnv) (st : MState) (cs : List Container) :
    clearAllContainersGo e st cs = (st, st.healthy) ∨
      clearAllContainersGo e st cs = ({ st with healthy := false }, false) := by
  induction cs with
  | nil => exact Or.inl rfl
  | cons c rest ih =>
    simp only [clearAllContainersGo]
    split
    · exact ih
    · split
      · exact ih
      · exact Or.inr rfl

/-- clearAllContainers either leaves the state alone and returns the
healthy flag, or sets healthy := false and returns false. -/
theorem clearAllContainers_spec (e : IterEnv) (st : MState) :
    clearAllContainers e st = (st, st.healthy) ∨
      clearAllContainers e st = ({ st with healthy := false }, false) := by
  unfold clearAllContainers
  split
  · exact Or.inr rfl
  · exact clearAllContainersGo_spec e st e.containers

/-- The container cleanup stage of runIteration (skipped entirely under
UNDER_DOCKER) can only return the state unchanged with the healthy flag,
the state unchanged with true, or healthy := false with false. -/
theorem contStep_spec (ud : Bool) (e : IterEnv) (st : MState) :
    (if ud = false then clearAllContainers e st else (st, true)) = (st, st.healthy) ∨
      (if ud = false then clearAllContainers e st else (st, true)) = (st, true) ∨
      (if ud = false then clearAllContainers e st else (st, true)) =
        ({ st with healthy := false }, false) := by
  split
  · rcases clearAllContainers_spec e st with h | h
    · exact Or.inl h
    · exact Or.inr (Or.inr h)
  · exact Or.inr (Or.inl rfl)

/-- A completed clearAllImagesGo call leaves the state alone or only
sets healthy := false. -/
theorem clearAllImagesGo_st (ud : Bool) (e : IterEnv) :
    ∀ (fuel : Nat) (imgs skip atts : List String) (st : MState) (d : ClearDone),
      clearAllImagesGo ud e fuel imgs skip atts st = some d →
      d.st = st ∨ d.st = { st with healthy := false } := by
  intro fuel
  induction fuel with
  | zero =>
    intro imgs skip atts st d h
    simp [clearAllImagesGo] at h
  | succ n ih =>
    intro imgs skip atts st d h
    simp only [clearAllImagesGo] at h
    split at h
    · cases h
      exact Or.inr rfl
    · split at h
      · cases h
        exact Or.inl rfl
      · split at h
        · cases h
          exact Or.inl rfl
        · split at h
          · cases h
            exact Or.inl rfl
          · split at h
            · exact ih _ _ _ _ _ h
            · split at h
              · cases h
                exact Or.inr rfl
              · cases h
                exact Or.inl rfl

/-- clearAllImages leaves the state alone or only sets healthy := false. -/
theorem clearAllImages_st (ud : Bool) (e : IterEnv) (st : MState) :
    (clearAllImages ud e st).st = st ∨
      (clearAllImages ud e st).st = { st with healthy := false } := by
  unfold clearAllImages
  rcases hg : clearAllImagesGo ud e (e.images.length + 1) e.images [] [] st with _ | d
  · exact Or.inl rfl
  · simpa using clearAllImagesGo_st ud e _ _ _ _ _ d hg

/-- deleteTopLayerGo either leaves the state alone and returns the
healthy flag, or sets healthy := false and returns false. -/
theorem deleteTopLayerGo_spec (e : IterEnv) (st : MState) (hist : List HistEntry) :
    deleteTopLayerGo e st hist = (st, st.healthy) ∨
      deleteTopLayerGo e st hist = ({ st with healthy := false }, false) := by
  induction hist with
  | nil => exact Or.inl rfl
  | cons entry rest ih =>
    simp only [deleteTopLayerGo]
    split
    · split
      · exact Or.inl rfl
      · exact Or.inr rfl
    · exact ih

/-- deleteTopLayer either leaves the state alone and returns the healthy
flag, or sets healthy := false and returns false. -/
theorem deleteTopLayer_spec (e : IterEnv) (st : MState) :
    deleteTopLayer e st = (st, st.healthy) ∨
      deleteTopLayer e st = ({ st with healthy := false }, false) := by
  unfold deleteTopLayer
  split
  · exact Or.inr rfl
  · exact deleteTopLayerGo_spec e st e.history

/-- createTagLayer either leaves the state alone and returns the healthy
flag, or sets healthy := false and returns false. -/
theorem createTagLayer_spec (e : IterEnv) (st : MState) :
    createTagLayer e st = (st, st.healthy) ∨
      createTagLayer e st = ({ st with healthy := false }, false) := by
  unfold createTagLayer
  split
  · exact Or.inr rfl
  · split
    · exact Or.inr rfl
    · exact Or.inl rfl

/-- pullTestImage succeeds untouched exactly when the oracle pull
succeeds, and otherwise only sets status := false. -/
theorem pullTestImage_spec (e : IterEnv) (st : MState) :
    (e.pullOk = true ∧ pullTestImage e st = (st, true)) ∨
      (e.pullOk = false ∧ pullTestImage e st = ({ st with status := false }, false)) := by
  cases hp : e.pullOk
  · exact Or.inr ⟨rfl, by simp [pullTestImage, hp]⟩
  · exact Or.inl ⟨rfl, by simp [pullTestImage, hp]⟩

/-- pushTestImage sets status := true and succeeds exactly when the
oracle push succeeds, and otherwise sets status := false. -/
theorem pushTestImage_spec (e : IterEnv) (st : MState) :
    (e.pushOk = true ∧ pushTestImage e st = ({ st with status := true }, true)) ∨
      (e.pushOk = false ∧ pushTestImage e st = ({ st with status := false }, false)) := by
  cases hp : e.pushOk
  · exact Or.inr ⟨rfl, by simp [pushTestImage, hp]⟩
  · exact Or.inl ⟨rfl, by simp [pushTestImage, hp]⟩

/-- Removing the head image removes at least that image from the list. -/
theorem removeImage_cons_self (e : IterEnv) (img : String) (rest : List String) :
    removeImage e img (img :: rest) = removeImage e img rest := by
  simp [removeImage, List.filter_cons]

/-- The image list shrinks strictly when the head image is removed. -/
theorem removeImage_cons_length (e : IterEnv) (img : String) (rest : List String) :
    (removeImage e img (img :: rest)).length ≤ rest.length := by
  rw [removeImage_cons_self]
  exact List.length_filter_le _ _

/-- Fuel exceeding the length of the image list always suffices for the
listing loop of clearAllImages: each pass either returns or strictly
shrinks the list. -/
theorem clearAllImagesGo_total (ud : Bool) (e : IterEnv) :
    ∀ (fuel : Nat) (imgs skip atts : List String) (st : MState),
      imgs.length < fuel →
      ∃ d, clearAllImagesGo ud e fuel imgs skip atts st = some d := by
  intro fuel
  induction fuel with
  | zero =>
    intro imgs skip atts st h
    exact absurd h (Nat.not_lt_zero _)
  | succ n ih =>
    intro imgs skip atts st h
    cases imgs with
    | nil =>
      simp only [clearAllImagesGo]
      split
      · exact ⟨_, rfl⟩
      · split
        · exact ⟨_, rfl⟩
        · exact ⟨_, rfl⟩
    | cons img rest =>
      simp only [clearAllImagesGo]
      split
      · exact ⟨_, rfl⟩
      · split
        · exact ⟨_, rfl⟩
        · split
          · exact ⟨_, rfl⟩
          · split
            · refine ih _ _ _ _ ?_
              have h1 : (removeImage e img (img :: rest)).length ≤ rest.length :=
                removeImage_cons_length e img rest
              have h2 : rest.length < n := by
                simpa [Nat.succ_lt_succ_iff] using h
              omega
            · split
              · exact ⟨_, rfl⟩
              · exact ⟨_, rfl⟩

/-- Claim C9: the image-cleanup step terminates after finitely many
enumeration passes for every runtime state and every skip set: one more
unit of fuel than the number of listed images always yields a completed
result (each pass either exits at once, in particular when nothing is
removed, or strictly shrinks the image list).  This covers constrained
mode with an image whose removal always fails, where the pass that
removes nothing ends the loop at once. -/
theorem C9_image_cleanup_terminates (ud : Bool) (e : IterEnv)
    (imgs skip atts : List String) (st : MState) :
    ∃ d, clearAllImagesGo ud e (imgs.length + 1) imgs skip atts st = some d :=
  clearAllImagesGo_total ud e (imgs.length + 1) imgs skip atts st (Nat.lt_succ_self _)

/-- Claim C8, amended: when image cleanup returns successfully, either
every image still listed is recorded in the skip set, or the first listed
image is recorded in the skip set.  (Only images[:1] is attempted per
pass, so the pass that attempts a skipped first image removes nothing and
cleanup stops even while removable images remain further down the list.) -/
theorem C8_cleanup_success_spec (ud : Bool) (e : IterEnv) :
    ∀ (fuel : Nat) (imgs skip atts : List String) (st : MState) (d : ClearDone),
      clearAllImagesGo ud e fuel imgs skip atts st = some d → d.ret = true →
      (∀ i ∈ d.imgs, stringInSlice i d.skip = true) ∨
        (∃ hd tl, d.imgs = hd :: tl ∧ stringInSlice hd d.skip = true) := by
  intro fuel
  induction fuel with
  | zero =>
    intro imgs skip atts st d h hret
    simp [clearAllImagesGo] at h
  | succ n ih =>
    intro imgs skip atts st d h hret
    cases imgs with
    | nil =>
      simp only [clearAllImagesGo, List.all_nil] at h
      split at h
      · cases h
        simp at hret
      · cases h
        left
        intro i hi
        simp at hi
    | cons img rest =>
      simp only [clearAllImagesGo] at h
      split at h
      · cases h
        simp at hret
      · split at h
        · rename_i hall
          cases h
          left
          intro i hi
          simpa using List.all_eq_true.mp hall i hi
        · split at h
          · rename_i hskip
            cases h
            exact Or.inr ⟨img, rest, rfl, hskip⟩
          · split at h
            · exact ih _ _ _ _ _ h hret
            · split at h
              · cases h
                simp at hret
              · cases h
                exact Or.inr ⟨img, rest, rfl, by simp [stringInSlice]⟩

/-- Witness for the amended claim C8 at the concrete env8 run: cleanup
returns true with images a and b still listed and only a skipped; the
amended statement holds through its second disjunct. -/
theorem C8_cleanup_success_spec_witness :
    (∀ i ∈ (["a", "b"] : List String), stringInSlice i ["a"] = true) ∨
      (∃ hd tl, (["a", "b"] : List String) = hd :: tl ∧ stringInSlice hd ["a"] = true) :=
  C8_cleanup_success_spec true env8 3 ["a", "b"] [] [] initState
    { st := initState, ret := true, imgs := ["a", "b"], skip := ["a"], attempts := ["a"] }
    (by decide) (by decide)

/-- Counterexample to claim C8 as stated: under UNDER_DOCKER with images
a and b where removal of a fails, cleanup returns successfully while b is
still listed, is not in the skip set, and is removable. -/
theorem C8_counterexample :
    (clearAllImages true env8 initState).ret = true ∧
      (clearAllImages true env8 initState).imgs = ["a", "b"] ∧
      (clearAllImages true env8 initState).skip = ["a"] ∧
      stringInSlice "b" (clearAllImages true env8 initState).skip = false ∧
      env8.removeImageOk "b" = true := by
  decide

/-- Claim C10, amended: listing succeeding, when the first listed image
is unskipped and its removal fails, then under UNDER_DOCKER the failure
is not fatal: the state (in particular healthy) is untouched, cleanup
returns true at once with the image recorded in the skip set, and no
further removal is attempted during this invocation (the attempts list
ends here); the skip set is a local of the invocation, so the exclusion
does not outlive it.  Outside UNDER_DOCKER the same failure sets
healthy := false and returns false (fatal). -/
theorem C10_constrained_skip_spec (e : IterEnv) (fuel : Nat) (img : String)
    (rest skip atts : List String) (st : MState)
    (hskip : stringInSlice img skip = false)
    (hrm : e.removeImageOk img = false)
    (hlist : e.listImagesOk = true) :
    clearAllImagesGo true e (fuel + 1) (img :: rest) skip atts st =
      some { st := st, ret := true, imgs := img :: rest, skip := img :: skip, attempts := atts ++ [img] } ∧
    clearAllImagesGo false e (fuel + 1) (img :: rest) skip atts st =
      some { st := { st with healthy := false }, ret := false, imgs := img :: rest, skip := skip, attempts := atts ++ [img] } := by
  constructor <;> simp [clearAllImagesGo, hskip, hrm, hlist]

/-- Witness for the amended claim C10 at a concrete input: one image
whose removal fails, empty skip set. -/
theorem C10_constrained_skip_spec_witness :
    clearAllImagesGo true env5iter 1 ["img"] [] [] initState =
      some { st := initState, ret := true, imgs := ["img"], skip := ["img"], attempts := ["img"] } ∧
    clearAllImagesGo false env5iter 1 ["img"] [] [] initState =
      some { st := { initState with healthy := false }, ret := false, imgs := ["img"], skip := [], attempts := ["img"] } :=
  C10_constrained_skip_spec env5iter 0 "img" [] [] [] initState (by decide) (by decide) (by decide)

/-- Counterexample to claim C10 as stated: the skip set does not outlive
one cleanup invocation.  With constrained mode and an image img whose
removal always fails (and a transient pull failure so the loop reaches a
second iteration), both the first and the second iteration call
RemoveImage on img, so the failed image is not permanently excluded from
removal attempts within the process lifetime. -/
theorem C10_counterexample :
    (runMonitor env10 2).traces =
      [ { cleanupAttempts := ["img"], pullInvoked := true, deleteInvoked := false, createInvoked := false, pushInvoked := false },
        { cleanupAttempts := ["img"], pullInvoked := true, deleteInvoked := false, createInvoked := false, pushInvoked := false } ] ∧
      env5iter.removeImageOk "img" = false := by
  decide

/-- Claim C1: contrary to the claim, both shared flags are false at
process start (Go zero values; no initializer assigns true), so before
the first iteration the health endpoint already answers 503 and the
status endpoint 400. -/
theorem C1_flags_false_at_start :
    initState.healthy = false ∧ initState.status = false ∧
      healthHandler initState = (503, "false") ∧
      statusHandler initState = (400, "false") := by
  decide

/-- Claim C3: evaluation at an environment where every runtime operation
succeeds (env3): the very first iteration ends the loop as if fatal,
because clearAllContainers returns the healthy flag, which has been false
since process start; healthy is false with no fatal step having failed,
no pipeline step past container cleanup ever runs, and no further
iteration begins. -/
theorem C3_all_success_still_halts :
    (runMonitor env3 2).halted = true ∧
      (runMonitor env3 2).traces = [noSteps] ∧
      (runMonitor env3 2).st.healthy = false := by
  decide

/-- Claim C5: evaluation at env5iter (constrained mode, one unremovable
image, pull fails transiently): the iteration ends with status false, the
failure counter incremented by one, duration 30 seconds, a continue (not
a fatal return), and delete top layer, create tag layer and push not
invoked - but healthy is false, not true, having never been set true. -/
theorem C5_pull_failure_iteration :
    (runIteration true env5iter initState).st.status = false ∧
      (runIteration true env5iter initState).st.failCount = initState.failCount + 1 ∧
      (runIteration true env5iter initState).st.duration = 30 ∧
      (runIteration true env5iter initState).outcome = IterExit.transient ∧
      (runIteration true env5iter initState).trace.pullInvoked = true ∧
      (runIteration true env5iter initState).trace.deleteInvoked = false ∧
      (runIteration true env5iter initState).trace.createInvoked = false ∧
      (runIteration true env5iter initState).trace.pushInvoked = false ∧
      (runIteration true env5iter initState).st.healthy = false := by
  decide

/-- Claim C6: evaluation at the all-success oracle: whether or not
constrained mode is on, the iteration ends the loop as if fatal (the
success paths of clearAllContainers and clearAllImages return the healthy
flag, false since start), so push is never invoked, no latency is
observed, and the success counter never moves. -/
theorem C6_all_success_never_completes :
    (runIteration false allOkEnv initState).outcome = IterExit.fatal ∧
      (runIteration true allOkEnv initState).outcome = IterExit.fatal ∧
      (runIteration false allOkEnv initState).st.successCount = 0 ∧
      (runIteration false allOkEnv initState).st.pullObs = 0 ∧
      (runIteration false allOkEnv initState).st.pushObs = 0 ∧
      (runIteration false allOkEnv initState).trace.pullInvoked = false ∧
      (runIteration false allOkEnv initState).trace.pushInvoked = false ∧
      (runIteration false allOkEnv initState).st.healthy = false := by
  decide

/-- Claim C7: evaluation at env7iter, whose image history has no entry
tagged latest: deleteTopLayer removes nothing and sets no error, but it
returns the healthy flag, false since process start, so the iteration
does not proceed to the create step - the loop halts instead of treating
the missing tag as a no-op. -/
theorem C7_missing_latest_tag_halts_loop :
    (runIteration true env7iter initState).trace.deleteInvoked = true ∧
      (runIteration true env7iter initState).outcome = IterExit.fatal ∧
      (runIteration true env7iter initState).trace.createInvoked = false ∧
      (runIteration true env7iter initState).st.healthy = false ∧
      env7iter.history.all (fun en => !(stringInSlice "latest" en.tags)) = true := by
  decide

/-- The pull, delete, create and push stages never raise the healthy
flag: they keep it false once false. -/
theorem iterFromPull_healthy (e : IterEnv) (atts : List String) (stp : MState)
    (h : stp.healthy = false) : (iterFromPull e atts stp).st.healthy = false := by
  rcases pullTestImage_spec e stp with ⟨hp, hpe⟩ | ⟨hp, hpe⟩
  · have h4 : ({ stp with pullObs := stp.pullObs + 1 } : MState).healthy = false := h
    have hd2 : (deleteTopLayer e { stp with pullObs := stp.pullObs + 1 }).2 = false := by
      rcases deleteTopLayer_spec e { stp with pullObs := stp.pullObs + 1 } with hd | hd <;>
        rw [hd] <;> simpa using h4
    have hd1 : (deleteTopLayer e { stp with pullObs := stp.pullObs + 1 }).1.healthy = false := by
      rcases deleteTopLayer_spec e { stp with pullObs := stp.pullObs + 1 } with hd | hd <;>
        rw [hd] <;> simpa using h4
    simp [iterFromPull, hpe, hd2, hd1]
  · simp [iterFromPull, hpe, h]

/-- One whole iteration never raises the healthy flag: it keeps it false
once false. -/
theorem runIteration_healthy (ud : Bool) (e : IterEnv) (st : MState)
    (h : st.healthy = false) : (runIteration ud e st).st.healthy = false := by
  obtain ⟨hh, hs, dur, sc, fc, po, ps⟩ := st
  simp only [MState.healthy] at h
  subst h
  by_cases hco : e.connectOk = false
  · simp [runIteration, hco]
  · rcases contStep_spec ud e ⟨false, true, dur, sc, fc, po, ps⟩ with hc | hc | hc
    · simp [runIteration, hco, hc]
    · by_cases hret : (clearAllImages ud e (⟨false, true, dur, sc, fc, po, ps⟩ : MState)).ret = false
      · rcases clearAllImages_st ud e (⟨false, true, dur, sc, fc, po, ps⟩ : MState) with hd | hd <;>
          simp [runIteration, hco, hc, hret, hd]
      · have hstp :
            (clearAllImages ud e (⟨false, true, dur, sc, fc, po, ps⟩ : MState)).st.healthy = false := by
          rcases clearAllImages_st ud e (⟨false, true, dur, sc, fc, po, ps⟩ : MState) with hd | hd <;>
            simp [hd]
        simpa [runIteration, hco, hc, hret] using
          iterFromPull_healthy e
            (clearAllImages ud e (⟨false, true, dur, sc, fc, po, ps⟩ : MState)).attempts
            (clearAllImages ud e (⟨false, true, dur, sc, fc, po, ps⟩ : MState)).st hstp
    · simp [runIteration, hco, hc]

/-- The monitor loop never raises the healthy flag. -/
theorem runLoop_healthy (env : Env) :
    ∀ (fuel i : Nat) (st : MState), st.healthy = false →
      (runLoop env fuel i st).st.healthy = false := by
  intro fuel
  induction fuel with
  | zero =>
    intro i st h
    simpa [runLoop] using h
  | succ n ih =>
    intro i st h
    have hr := runIteration_healthy env.underDocker (env.iters i) st h
    simp only [runLoop]
    cases hout : (runIteration env.underDocker (env.iters i) st).outcome
    · simpa [hout] using hr
    · simpa [hout] using ih (i + 1) _ hr
    · simpa [hout] using ih (i + 1) _ hr

/-- Claim C2: no statement of the program ever assigns true to healthy.
Starting from the zero-initialized process state, however long the
monitor loop runs and whatever the runtime oracle answers, healthy stays
false and the health handler answers 503 with body false; verifyDockerClient
(present in the source but never called) likewise leaves healthy alone or
sets it to false. -/
theorem C2_healthy_never_true (env : Env) (fuel : Nat) :
    (runMonitor env fuel).st.healthy = false ∧
      healthHandler (runMonitor env fuel).st = (503, "false") ∧
      (∀ (e : IterEnv) (st : MState),
        (verifyDockerClient e st).1.healthy = st.healthy ∨
          (verifyDockerClient e st).1.healthy = false) := by
  have hh : (runMonitor env fuel).st.healthy = false :=
    runLoop_healthy env fuel 0 initState rfl
  refine ⟨hh, ?_, ?_⟩
  · simp [healthHandler, hh, boolText]
  · intro e st
    unfold verifyDockerClient
    split
    · exact Or.inr rfl
    · exact Or.inl rfl

/-- Entering the pull stage with status true, the final status is false
exactly when the pull fails or the push runs and fails; and the pull is
always recorded as invoked. -/
theorem iterFromPull_status (e : IterEnv) (atts : List String) (stp : MState)
    (hstp : stp.status = true) :
    ((iterFromPull e atts stp).st.status = false ↔
        (e.pullOk = false ∨
          ((iterFromPull e atts stp).trace.pushInvoked = true ∧ e.pushOk = false))) ∧
      (iterFromPull e atts stp).trace.pullInvoked = true := by
  obtain ⟨hh, hs, dur, sc, fc, po, ps⟩ := stp
  simp only [MState.status] at hstp
  subst hstp
  cases hh with
  | false =>
    rcases pullTestImage_spec e ⟨false, true, dur, sc, fc, po, ps⟩ with ⟨hp, hpe⟩ | ⟨hp, hpe⟩
    · rcases deleteTopLayer_spec e (⟨false, true, dur, sc, fc, po + 1, ps⟩ : MState) with hd | hd <;>
        simp [iterFromPull, noSteps, hpe, hd, hp]
    · simp [iterFromPull, noSteps, hpe, hp]
  | true =>
    rcases pullTestImage_spec e ⟨true, true, dur, sc, fc, po, ps⟩ with ⟨hp, hpe⟩ | ⟨hp, hpe⟩
    · rcases deleteTopLayer_spec e (⟨true, true, dur, sc, fc, po + 1, ps⟩ : MState) with hd | hd
      · rcases createTagLayer_spec e (⟨true, true, dur, sc, fc, po + 1, ps⟩ : MState) with hcr | hcr
        · rcases pushTestImage_spec e (⟨true, true, dur, sc, fc, po + 1, ps⟩ : MState) with
            ⟨hq, hqe⟩ | ⟨hq, hqe⟩ <;>
              simp [iterFromPull, noSteps, hpe, hd, hcr, hqe, hp, hq]
        · simp [iterFromPull, noSteps, hpe, hd, hcr, hp]
      · simp [iterFromPull, noSteps, hpe, hd, hp]
    · simp [iterFromPull, noSteps, hpe, hp]

/-- Claim C4: for every iteration and every incoming state, the incoming
status value is irrelevant because the loop body begins with
status := true (first conjunct), and the final status is false exactly
when the pull step was invoked and failed or the push step was invoked
and failed; no other step changes status (second conjunct, an iff over
an arbitrary incoming state). -/
theorem C4_status_reset_and_iff (ud : Bool) (e : IterEnv) (st : MState) :
    runIteration ud e st = runIteration ud e { st with status := true } ∧
      ((runIteration ud e st).st.status = false ↔
        ((runIteration ud e st).trace.pullInvoked = true ∧ e.pullOk = false) ∨
          ((runIteration ud e st).trace.pushInvoked = true ∧ e.pushOk = false)) := by
  constructor
  · cases st
    rfl
  · obtain ⟨hh, hs, dur, sc, fc, po, ps⟩ := st
    by_cases hco : e.connectOk = false
    · simp [runIteration, noSteps, hco]
    · cases hh with
      | false =>
        rcases contStep_spec ud e ⟨false, true, dur, sc, fc, po, ps⟩ with hc | hc | hc
        · simp [runIteration, noSteps, hco, hc]
        · by_cases hret :
            (clearAllImages ud e (⟨false, true, dur, sc, fc, po, ps⟩ : MState)).ret = false
          · rcases clearAllImages_st ud e (⟨false, true, dur, sc, fc, po, ps⟩ : MState) with
              hd | hd <;> simp [runIteration, noSteps, hco, hc, hret, hd]
          · have hstat :
                (clearAllImages ud e
                  (⟨false, true, dur, sc, fc, po, ps⟩ : MState)).st.status = true := by
              rcases clearAllImages_st ud e (⟨false, true, dur, sc, fc, po, ps⟩ : MState) with
                hd | hd <;> simp [hd]
            obtain ⟨hiff, hpull⟩ := iterFromPull_status e
              (clearAllImages ud e (⟨false, true, dur, sc, fc, po, ps⟩ : MState)).attempts
              (clearAllImages ud e (⟨false, true, dur, sc, fc, po, ps⟩ : MState)).st hstat
            simp [runIteration, noSteps, hco, hc, hret, hpull, hiff]
        · simp [runIteration, noSteps, hco, hc]
      | true =>
        rcases contStep_spec ud e ⟨true, true, dur, sc, fc, po, ps⟩ with hc | hc | hc
        · by_cases hret :
            (clearAllImages ud e (⟨true, true, dur, sc, fc, po, ps⟩ : MState)).ret = false
          · rcases clearAllImages_st ud e (⟨true, true, dur, sc, fc, po, ps⟩ : MState) with
              hd | hd <;> simp [runIteration, noSteps, hco, hc, hret, hd]
          · have hstat :
                (clearAllImages ud e
                  (⟨true, true, dur, sc, fc, po, ps⟩ : MState)).st.status = true := by
              rcases clearAllImages_st ud e (⟨true, true, dur, sc, fc, po, ps⟩ : MState) with
                hd | hd <;> simp [hd]
            obtain ⟨hiff, hpull⟩ := iterFromPull_status e
              (clearAllImages ud e (⟨true, true, dur, sc, fc, po, ps⟩ : MState)).attempts
              (clearAllImages ud e (⟨true, true, dur, sc, fc, po, ps⟩ : MState)).st hstat
            simp [runIteration, noSteps, hco, hc, hret, hpull, hiff]
        · by_cases hret :
            (clearAllImages ud e (⟨true, true, dur, sc, fc, po, ps⟩ : MState)).ret = false
          · rcases clearAllImages_st ud e (⟨true, true, dur, sc, fc, po, ps⟩ : MState) with
              hd | hd <;> simp [runIteration, noSteps, hco, hc, hret, hd]
          · have hstat :
                (clearAllImages ud e
                  (⟨true, true, dur, sc, fc, po, ps⟩ : MState)).st.status = true := by
              rcases clearAllImages_st ud e (⟨true, true, dur, sc, fc, po, ps⟩ : MState) with
                hd | hd <;> simp [hd]
            obtain ⟨hiff, hpull⟩ := iterFromPull_status e
              (clearAllImages ud e (⟨true, true, dur, sc, fc, po, ps⟩ : MState)).attempts
              (clearAllImages ud e (⟨true, true, dur, sc, fc, po, ps⟩ : MState)).st hstat
            simp [runIteration, noSteps, hco, hc, hret, hpull, hiff]
        · simp [runIteration, noSteps, hco, hc]

end RegistryMonitor
